import Mathlib

/-!
Verification development for the kratos-layout lottery ledger scaffolding.

The Go source (desin_pattern/ticket/ticket.go, desin_pattern/factory/factory.go,
desin_pattern/strategy/strategy.go) is embedded shallowly:

* Machine integers and `float64` currency amounts are modelled as `Int`.  The
  embedded code only stores amounts and (in the spec-modelled settlement)
  multiplies them by an integer multiple, so exact fixed-point integers are a
  faithful model of the values that flow through it.
* `time.Time` / Unix timestamps are modelled as `Nat` and passed explicitly to
  every function that calls `time.Now()` in the source.
* `uuid.UUID` values produced by `uuid.New()` are modelled as `Nat` identifiers
  supplied explicitly by the environment.
* A MongoDB collection is modelled as the list of its documents in insertion
  order; `InsertOne` appends.  A possible driver/connection failure of the
  authoritative store is modelled by an explicit `down` flag; when the store is
  up, `InsertOne` succeeds (the collections carry no unique index other than
  the always-fresh `_id`, so no insert is ever rejected as a duplicate).
* The Redis cache is modelled as an association list keyed by the cache key
  string; `SET` replaces any previous binding of the key.

ticket.go contains two independent declaration blocks (lines 17-226 and
lines 228-471) that redeclare `LotteryType` and `LotteryTicket` with different
fields.  The first block is embedded in namespace `Warehouse`, the second in
namespace `Service`.  Components that the spec describes but that have no
implementation anywhere in the repository (the bet-format registry, the
ticket status transition function, the settlement engine) are modelled from
the spec; each such definition says so in its doc comment.
-/

namespace KratosLottery

/-- Lottery product variants, from the integer enumeration at ticket.go:20-34
(the string enumeration at ticket.go:228-242 lists the same eleven variants). -/
inductive LotteryType where
  | DoubleBall
  | ArrangeV5
  | ArrangeV3
  | SuperLotto
  | SelectNine
  | FootballLottery
  | BasketballLottery
  | SingleMatch
  | SevenHappy
  | Happy8
  | Welfare3D
deriving DecidableEq, Repr

/-- Ticket status enumeration, from ticket.go:65-72.  The source calls the
spec's `Won` state `Winning`. -/
inductive TicketStatus where
  | Pending
  | Winning
  | Lost
  | Claimed
deriving DecidableEq, Repr

/-- The only failure the embedded storage code can surface: an authoritative
store (MongoDB driver) error.  Neither declaration block of ticket.go defines
a `DuplicateResult`, `ValidationError` or `InvalidTransition` error value. -/
inductive StorageErr where
  | storageFailure
deriving DecidableEq, Repr

/-! ## Factory (desin_pattern/factory/factory.go) -/

namespace Factory

/-- The two concrete `Bet` implementations of factory.go:10-21. -/
inductive Bet where
  | FootballBet
  | BasketballBet
deriving DecidableEq, Repr

/-- `Bet.PlaceBet` from factory.go:12-21; the formatted amount string is
modelled abstractly by returning the tag together with the amount. -/
def PlaceBet (b : Bet) (amount : Int) : String × Int :=
  match b with
  | .FootballBet => ("Football bet placed", amount)
  | .BasketballBet => ("Basketball bet placed", amount)

/-- `BetFactory.CreateBet` from factory.go:26-35: a switch on the string
`betType`; the `default` branch returns the nil interface, modelled as
`none`. -/
def CreateBet (betType : String) : Option Bet :=
  match betType with
  | "football" => some .FootballBet
  | "basketball" => some .BasketballBet
  | _ => none

end Factory

/-! ## First declaration block of ticket.go (namespace `Warehouse`) -/

namespace Warehouse

/-- `LotteryTicket` from ticket.go:37-47. -/
structure LotteryTicket where
  id : String
  userID : String
  lotteryType : LotteryType
  numbers : List (List Int)
  betAmount : Int
  betTime : Nat
  multiple : Int
  playType : String
  status : TicketStatus
deriving DecidableEq, Repr

/-- `LotteryFactory.CreateLotteryTicket` from ticket.go:191-204.  The Go code
sets `ID` to `fmt.Sprintf("%d_%s", time.Now().UnixNano(), userID)` and leaves
`BetAmount`, `Multiple` and `PlayType` at their zero values.  The observed
`time.Now().UnixNano()` is the explicit `nowUnixNano` argument. -/
def CreateLotteryTicket (nowUnixNano : Nat) (lotteryType : LotteryType)
    (userID : String) (numbers : List (List Int)) : LotteryTicket :=
  { id := Nat.repr nowUnixNano ++ "_" ++ userID
    userID := userID
    lotteryType := lotteryType
    numbers := numbers
    betAmount := 0
    betTime := nowUnixNano
    multiple := 0
    playType := ""
    status := .Pending }

/-- State of the `tickets` collection of `MongoDBStorageStrategy`
(ticket.go:83-104): the inserted documents in insertion order, plus a flag
modelling whether the store is reachable. -/
structure MongoDBStorageStrategy where
  tickets : List LotteryTicket
  down : Bool
deriving DecidableEq, Repr

/-- `MongoDBStorageStrategy.SaveTicket` from ticket.go:106-109: a bare
`InsertOne`. -/
def SaveTicket (t : LotteryTicket) (s : MongoDBStorageStrategy) :
    Except StorageErr Unit × MongoDBStorageStrategy :=
  if s.down then (.error .storageFailure, s)
  else (.ok (), { s with tickets := s.tickets ++ [t] })

/-- The Redis cache of `RedisCacheStrategy` (ticket.go:141-151): an
association list keyed by the cache key; `SET` replaces the key's binding. -/
def RedisCache := List (String × LotteryTicket)

/-- `RedisCacheStrategy.CacheTicket` from ticket.go:153-159: marshals the
ticket and issues `SET ticket:<id> <ticket>` with a TTL.  Marshalling a
ticket value never fails, so with the cache reachable the call succeeds. -/
def CacheTicket (t : LotteryTicket) (c : RedisCache) : RedisCache :=
  ("ticket:" ++ t.id, t) :: c.filter (fun p => p.1 ≠ t.id)

/-- The save sequence of `main` at ticket.go:206-226: it calls
`mongoStrategy.SaveTicket(ticket)` DISCARDING the returned error, then
unconditionally calls `redisCache.CacheTicket(ticket)`. -/
def mainSaveFlow (t : LotteryTicket) (s : MongoDBStorageStrategy)
    (c : RedisCache) : MongoDBStorageStrategy × RedisCache :=
  let s1 := (SaveTicket t s).2
  (s1, CacheTicket t c)

/-- `LotteryDataWarehouse` from ticket.go:162-178: it holds the storage
strategy and the cache strategy. -/
structure LotteryDataWarehouse where
  storageStrategy : MongoDBStorageStrategy
  cacheStrategy : RedisCache

/-- `LotteryDataWarehouse.GetUserLotteryStats` from ticket.go:181-184: the
body is exactly `return nil, nil`, regardless of the receiver's state. -/
def GetUserLotteryStats (ldw : LotteryDataWarehouse) (userID : String) :
    Option (List (LotteryType × Int)) × Option StorageErr :=
  (none, none)

end Warehouse

/-! ## Second declaration block of ticket.go (namespace `Service`) -/

namespace Service

/-- `PrizeInfo` from ticket.go:290-294 (`Level` is the string enumeration
`PrizeLevel` of ticket.go:255-262). -/
structure PrizeInfo where
  level : String
  winnerCount : Int
  prizeAmount : Int
deriving DecidableEq, Repr

/-- `LotteryTicket` from ticket.go:265-276 (`uuid.UUID` fields modelled as
`Nat`, `BetType` as its underlying string). -/
structure LotteryTicket where
  id : Nat
  userID : Nat
  lotteryType : LotteryType
  betType : String
  numbers : List (List Int)
  betAmount : Int
  multiple : Int
  issueNumber : String
  betTime : Nat
  status : TicketStatus
deriving DecidableEq, Repr

/-- `DrawResult` from ticket.go:279-287. -/
structure DrawResult where
  id : Nat
  lotteryType : LotteryType
  issueNumber : String
  drawTime : Nat
  winningNumbers : List Int
  jackpot : Int
  prizes : List PrizeInfo
deriving DecidableEq, Repr

/-- State of `MongoLotteryRepository` (ticket.go:305-330): the two collections
in insertion order plus the reachability flag of the store. -/
structure MongoLotteryRepository where
  tickets : List LotteryTicket
  results : List DrawResult
  down : Bool
deriving DecidableEq, Repr

/-- `MongoLotteryRepository.SaveTicket` from ticket.go:332-338: a bare
`InsertOne` into the ticket collection. -/
def SaveTicket (t : LotteryTicket) (r : MongoLotteryRepository) :
    Except StorageErr Unit × MongoLotteryRepository :=
  if r.down then (.error .storageFailure, r)
  else (.ok (), { r with tickets := r.tickets ++ [t] })

/-- `MongoLotteryRepository.SaveDrawResult` from ticket.go:340-346: a bare
`InsertOne` into the result collection.  No lookup of an existing result for
the same (lottery type, issue) is performed before inserting. -/
def SaveDrawResult (d : DrawResult) (r : MongoLotteryRepository) :
    Except StorageErr Unit × MongoLotteryRepository :=
  if r.down then (.error .storageFailure, r)
  else (.ok (), { r with results := r.results ++ [d] })

/-- `MongoLotteryRepository.GetTicketsByUser` from ticket.go:348-365: a `Find`
with the filter `user_id = userID` and NO sort stage, so the cursor yields the
matching documents in the collection's insertion order. -/
def GetTicketsByUser (userID : Nat) (r : MongoLotteryRepository) :
    Except StorageErr (List LotteryTicket) :=
  if r.down then .error .storageFailure
  else .ok (r.tickets.filter (fun t => t.userID == userID))

/-- `LotteryService.PlaceBet` from ticket.go:396-415.  The Go code performs no
validation whatsoever: it builds the ticket (with `ID := uuid.New()`, modelled
by the explicit `freshId`, and `IssueNumber := fmt.Sprintf("%d",
time.Now().Unix())`, modelled from the explicit `nowUnix`), saves it, and
returns it.  `BetType` and `Multiple` keep their zero values. -/
def PlaceBet (freshId : Nat) (nowUnix : Nat) (userID : Nat)
    (lotteryType : LotteryType) (numbers : List (List Int)) (betAmount : Int)
    (repo : MongoLotteryRepository) :
    Except StorageErr LotteryTicket × MongoLotteryRepository :=
  let ticket : LotteryTicket :=
    { id := freshId
      userID := userID
      lotteryType := lotteryType
      betType := ""
      numbers := numbers
      betAmount := betAmount
      multiple := 0
      issueNumber := Nat.repr nowUnix
      betTime := nowUnix
      status := .Pending }
  match SaveTicket ticket repo with
  | (.ok _, repo1) => (.ok ticket, repo1)
  | (.error e, repo1) => (.error e, repo1)

/-- `LotteryService.RecordDrawResult` from ticket.go:417-434.  The Go code
builds the result (`ID := uuid.New()` modelled by `freshId`, `IssueNumber :=
fmt.Sprintf("%d", time.Now().Unix())` from `nowUnix`, `Jackpot` left at its
zero value), saves it with `SaveDrawResult`, and returns it.  There is no
duplicate check for an existing (lottery type, issue) pair. -/
def RecordDrawResult (freshId : Nat) (nowUnix : Nat)
    (lotteryType : LotteryType) (winningNumbers : List Int)
    (prizes : List PrizeInfo) (repo : MongoLotteryRepository) :
    Except StorageErr DrawResult × MongoLotteryRepository :=
  let result : DrawResult :=
    { id := freshId
      lotteryType := lotteryType
      issueNumber := Nat.repr nowUnix
      drawTime := nowUnix
      winningNumbers := winningNumbers
      jackpot := 0
      prizes := prizes }
  match SaveDrawResult result repo with
  | (.ok _, repo1) => (.ok result, repo1)
  | (.error e, repo1) => (.error e, repo1)

/-- The number of draw results recorded for one (lottery type, issue) pair in
a repository state. -/
def resultCountFor (lotteryType : LotteryType) (issue : String)
    (r : MongoLotteryRepository) : Nat :=
  (r.results.filter
    (fun d => d.lotteryType == lotteryType && d.issueNumber == issue)).length

/-- The predicate "the list is ordered by creation time, newest first", as a
computable check: each ticket's `betTime` is at least the next one's. -/
def newestFirst : List LotteryTicket → Bool
  | [] => true
  | [_] => true
  | a :: b :: l => decide (b.betTime ≤ a.betTime) && newestFirst (b :: l)

end Service

/-! ## Ticket Ledger transitions (spec §3, §4.2) — modelled from the spec -/

namespace Ledger

/-- Transition errors of spec §4.2 / §7.  Modelled from the spec: the
repository declares only the `TicketStatus` enumeration (ticket.go:65-72) and
contains no transition or claim function and no `InvalidTransition` value. -/
inductive TransitionError where
  | InvalidTransition
  | NotFound
deriving DecidableEq, Repr

/-- Modelled from the spec: a ledger ticket as needed by §4.2 and §4.5 — the
source `LotteryTicket` records carry no payout field, which spec §3 requires
settlement to write ("settlement never edits numbers, only status and
computed payout"). -/
structure STicket where
  id : Nat
  userID : Nat
  lotteryType : LotteryType
  numbers : List (List Int)
  betAmount : Int
  multiple : Int
  status : TicketStatus
  payout : Int
deriving DecidableEq, Repr

/-- Modelled from the spec: the status state machine of §3 — "`Pending` → (on
settlement) → `Won` | `Lost` → (on user claim, only from `Won`) → `Claimed`";
the source's name for `Won` is `Winning`. -/
def allowedTransition : TicketStatus → TicketStatus → Bool
  | .Pending, .Winning => true
  | .Pending, .Lost => true
  | .Winning, .Claimed => true
  | _, _ => false

/-- Modelled from the spec: `transition(ticketID, newStatus, payoutAmount)` of
§4.2, per ticket — "enforcing the state machine above; attempting an illegal
transition fails with `InvalidTransition` and leaves the ticket unchanged". -/
def transition (t : STicket) (newStatus : TicketStatus) (payoutAmount : Int) :
    Except TransitionError STicket :=
  if allowedTransition t.status newStatus then
    .ok { t with status := newStatus, payout := payoutAmount }
  else
    .error .InvalidTransition

/-- Modelled from the spec: `claimTicket` of §6 — a user claim, permitted only
from `Won`, which changes only the status. -/
def claimTicket (t : STicket) : Except TransitionError STicket :=
  transition t .Claimed t.payout

end Ledger

/-! ## Settlement Engine (spec §4.5) — modelled from the spec -/

namespace Settlement

open Ledger

/-- A prize tier record: label and per-winner amount (spec §3 `PrizeTier`). -/
structure PrizeTier where
  label : String
  perWinnerAmount : Int
deriving DecidableEq, Repr

/-- Modelled from the spec: the match signature of a pick-6-with-bonus ticket
(§4.5 steps 1-2) — the product is order-irrelevant, so the main group is
compared as a set against the winning main numbers, and the bonus field is
compared for equality.  The ticket's groups are `[main, [bonus]]`. -/
def pick6MatchSignature (numbers : List (List Int)) (winningMain : List Int)
    (winningBonus : Int) : Nat × Bool :=
  let main := numbers.headD []
  let bonus := (numbers.getD 1 []).headD 0
  ((main.filter (fun x => decide (x ∈ winningMain))).length,
    decide (bonus = winningBonus))

/-- Modelled from the spec: a pick-6-with-bonus prize-tier rule table (§4.5
step 2 — "6-of-6 main = tier 1, 5-of-6 main + bonus = tier 2, down to the
lowest paying tier"); the per-tier amounts are configuration inputs (§9). -/
def pick6Table (a1 a2 : Int) : Nat × Bool → Option PrizeTier :=
  fun sig =>
    if sig.1 = 6 then some { label := "FIRST", perWinnerAmount := a1 }
    else if sig.1 = 5 && sig.2 then
      some { label := "SECOND", perWinnerAmount := a2 }
    else none

/-- Modelled from the spec: settlement of one ticket against a finalized draw
result (§4.5 steps 1-4), for the pick-6-with-bonus signature.  The status
guard makes settlement of a non-`Pending` ticket a no-op; a signature with no
tier yields `Lost` with payout 0; a tier yields `Won` (source name `Winning`)
with payout `tier.perWinnerAmount * multiple`. -/
def settleTicket (table : Nat × Bool → Option PrizeTier)
    (winningMain : List Int) (winningBonus : Int) (t : STicket) : STicket :=
  if t.status ≠ .Pending then t
  else
    match table (pick6MatchSignature t.numbers winningMain winningBonus) with
    | none => { t with status := .Lost, payout := 0 }
    | some tier =>
        { t with status := .Winning, payout := tier.perWinnerAmount * t.multiple }

end Settlement

/-! ## Bet Format Registry (spec §4.1) — modelled from the spec -/

namespace BetFormat

/-- Modelled from the spec: the per-group shape of a product's rule — expected
field count and the declared value domain (§3, §4.1). -/
structure GroupRule where
  size : Nat
  lo : Int
  hi : Int
deriving DecidableEq, Repr

/-- Modelled from the spec: one product variant's static rule — the group
shapes, whether order is irrelevant, and whether repeats are allowed within a
group (§3 "Each variant statically defines: number-of-fields, valid value
range per field, whether order matters"). -/
structure FormatRule where
  groups : List GroupRule
  orderIrrelevant : Bool
  allowRepeats : Bool
deriving DecidableEq, Repr

/-- Modelled from the spec: the static rule table per product variant.  The
concrete field counts and domains are representative configuration values
(§9 leaves them as business-rule inputs); the order/repeat flags follow §4.1:
lottery-style draws are order-irrelevant without repeats, permutation and
digit products are order-sensitive with repeats allowed, sports-outcome pools
are positional. -/
def formatRule : LotteryType → FormatRule
  | .DoubleBall => ⟨[⟨6, 1, 33⟩, ⟨1, 1, 16⟩], true, false⟩
  | .ArrangeV5 => ⟨[⟨5, 0, 9⟩], false, true⟩
  | .ArrangeV3 => ⟨[⟨3, 0, 9⟩], false, true⟩
  | .SuperLotto => ⟨[⟨5, 1, 35⟩, ⟨2, 1, 12⟩], true, false⟩
  | .SelectNine => ⟨[⟨9, 0, 3⟩], false, true⟩
  | .FootballLottery => ⟨[⟨14, 0, 3⟩], false, true⟩
  | .BasketballLottery => ⟨[⟨1, 0, 1⟩], false, true⟩
  | .SingleMatch => ⟨[⟨1, 0, 2⟩], false, true⟩
  | .SevenHappy => ⟨[⟨7, 1, 30⟩], true, false⟩
  | .Happy8 => ⟨[⟨10, 1, 80⟩], true, false⟩
  | .Welfare3D => ⟨[⟨3, 0, 9⟩], false, true⟩

/-- Modelled from the spec: validity of one number group against its
`GroupRule` (§4.1 — field count, value domain, duplicate rejection when the
product disallows repeats). -/
def validGroup (allowRepeats : Bool) (r : GroupRule) (g : List Int) : Bool :=
  g.length == r.size
    && g.all (fun x => decide (r.lo ≤ x) && decide (x ≤ r.hi))
    && (allowRepeats || decide g.Nodup)

/-- Modelled from the spec: `validate(product, numberGroups)` of §4.1 (the
repository contains no validation code). -/
def validate (lt : LotteryType) (gs : List (List Int)) : Bool :=
  let r := formatRule lt
  gs.length == r.groups.length
    && (r.groups.zip gs).all (fun p => validGroup r.allowRepeats p.1 p.2)

/-- Modelled from the spec: canonicalization of one group (§4.1 — "for
order-irrelevant formats, groups are canonicalized by sorting to make equal
selections compare equal"; permutation formats preserve order). -/
def canonicalizeGroup (lt : LotteryType) (g : List Int) : List Int :=
  if (formatRule lt).orderIrrelevant then g.insertionSort (· ≤ ·) else g

/-- Modelled from the spec: canonicalization of a full selection (§4.1). -/
def canonicalize (lt : LotteryType) (gs : List (List Int)) :
    List (List Int) :=
  gs.map (canonicalizeGroup lt)

end BetFormat

/-! ## Concrete fixtures used by the claim theorems -/

/-- The draw result already recorded for (DoubleBall, issue "100") in the C1
fixture. -/
def r0C1 : Service.DrawResult :=
  ⟨1, .DoubleBall, "100", 100, [1, 2, 3, 4, 5, 6, 7], 0, []⟩

/-- The draw result produced by the second `RecordDrawResult` call of the C1
fixture: same lottery type, same generated issue "100". -/
def d1C1 : Service.DrawResult :=
  ⟨2, .DoubleBall, "100", 100, [8, 9, 10, 11, 12, 13, 14], 0, []⟩

/-- The ticket `PlaceBet` constructs in the C4 fixture for a stake of -5. -/
def badTicketC4 : Service.LotteryTicket :=
  ⟨7, 42, .DoubleBall, "", [[1, 2, 3, 4, 5, 6], [7]], -5, 0, "50", 50, .Pending⟩

/-- The ticket of the C8 fixture (main's double-ball example bet). -/
def ticketC8 : Warehouse.LotteryTicket :=
  Warehouse.CreateLotteryTicket 5 .DoubleBall "user123" [[1, 2, 3, 4, 5, 6], [7]]

/-! ## Theorems for the claims -/

/-- Claim C9: for every user and every warehouse state — including any state
reached by saving and caching further tickets — `GetUserLotteryStats` returns
the nil map and the nil error: the statistics query is a stub that never
reports data and never reports failure. -/
theorem C9_get_user_lottery_stats_is_stub
    (ldw : Warehouse.LotteryDataWarehouse) (userID : String)
    (t : Warehouse.LotteryTicket) :
    Warehouse.GetUserLotteryStats ldw userID = (none, none) ∧
    Warehouse.GetUserLotteryStats
      ⟨(Warehouse.SaveTicket t ldw.storageStrategy).2,
        Warehouse.CacheTicket t ldw.cacheStrategy⟩ userID = (none, none) :=
  ⟨rfl, rfl⟩

/-- Claim C10: `BetFactory.CreateBet` yields a usable `Bet` only for the exact
strings "football" and "basketball"; for every other string it returns the nil
interface (`none`), not an error value, so there is no `Bet` on which a
subsequent `PlaceBet` could be invoked. -/
theorem C10_create_bet_nil_on_unknown_type (betType : String)
    (h1 : betType ≠ "football") (h2 : betType ≠ "basketball") :
    Factory.CreateBet betType = none ∧
    Factory.CreateBet "football" = some .FootballBet ∧
    Factory.CreateBet "basketball" = some .BasketballBet := by
  refine ⟨?_, rfl, rfl⟩
  unfold Factory.CreateBet
  split <;> simp_all

/-- Witness for C10 at the concrete unknown bet type "tennis". -/
theorem C10_create_bet_nil_on_unknown_type_witness :
    Factory.CreateBet "tennis" = none ∧
    Factory.CreateBet "football" = some .FootballBet ∧
    Factory.CreateBet "basketball" = some .BasketballBet :=
  C10_create_bet_nil_on_unknown_type "tennis" (by decide) (by decide)

/-- Claim C1 (code divergence): `RecordDrawResult` performs no duplicate check
whatsoever.  With the store reachable it always succeeds and appends — it can
never fail with a `DuplicateResult` (no such error exists in the code) — and
in particular, starting from a repository that already holds the result
`r0C1` for (DoubleBall, issue "100"), a second call in the same Unix second
(nowUnix = 100, so the generated issue is again "100") succeeds and leaves
TWO draw results recorded for that (product, issue) pair. -/
theorem C1_record_draw_result_allows_duplicate_pair :
    (∀ (freshId nowUnix : Nat) (lt : LotteryType) (wn : List Int)
        (przs : List Service.PrizeInfo) (tks : List Service.LotteryTicket)
        (rs : List Service.DrawResult),
      ∃ d : Service.DrawResult,
        Service.RecordDrawResult freshId nowUnix lt wn przs ⟨tks, rs, false⟩ =
          (.ok d, ⟨tks, rs ++ [d], false⟩)) ∧
    Service.RecordDrawResult 2 100 .DoubleBall [8, 9, 10, 11, 12, 13, 14] []
        ⟨[], [r0C1], false⟩ = (.ok d1C1, ⟨[], [r0C1, d1C1], false⟩) ∧
    Service.resultCountFor .DoubleBall "100" ⟨[], [r0C1, d1C1], false⟩ = 2 ∧
    r0C1 ≠ d1C1 := by
  refine ⟨fun freshId nowUnix lt wn przs tks rs => ⟨_, rfl⟩, rfl, by decide, by decide⟩

/-- Claim C4 (code divergence): `PlaceBet` performs no validation at all — a
call with the non-positive stake -5 succeeds, constructs the ticket without
any prior check of the number groups, persists it, and returns it. -/
theorem C4_place_bet_accepts_nonpositive_stake :
    Service.PlaceBet 7 50 42 .DoubleBall [[1, 2, 3, 4, 5, 6], [7]] (-5)
        ⟨[], [], false⟩ = (.ok badTicketC4, ⟨[badTicketC4], [], false⟩) ∧
    badTicketC4.betAmount < 0 ∧ badTicketC4.status = .Pending := by
  refine ⟨rfl, by decide, rfl⟩

/-- Claim C8 (code divergence): the save sequence of `main` discards the
error returned by the authoritative `SaveTicket` and calls `CacheTicket`
unconditionally: when the authoritative store is down the authoritative write
fails, yet the flow still writes the ticket into the Redis cache (and
surfaces no failure to anyone). -/
theorem C8_cache_written_despite_authoritative_failure :
    (Warehouse.SaveTicket ticketC8 ⟨[], true⟩).1 = .error .storageFailure ∧
    Warehouse.mainSaveFlow ticketC8 ⟨[], true⟩ [] =
      (⟨[], true⟩, [("ticket:" ++ ticketC8.id, ticketC8)]) := by
  refine ⟨rfl, rfl⟩

/-- Claim C5, counterexample: two distinct creation calls — different product
and different number selections, and indeed different returned tickets —
made by the same user in the same nanosecond receive the SAME identity, so
identities assigned at creation are not globally unique per call. -/
theorem C5_counterexample_same_identity_for_distinct_calls :
    (Warehouse.CreateLotteryTicket 5 .DoubleBall "u" [[1, 2, 3]]).id =
      (Warehouse.CreateLotteryTicket 5 .ArrangeV3 "u" [[9]]).id ∧
    Warehouse.CreateLotteryTicket 5 .DoubleBall "u" [[1, 2, 3]] ≠
      Warehouse.CreateLotteryTicket 5 .ArrangeV3 "u" [[9]] := by
  refine ⟨rfl, by decide⟩

/-- Claim C5 as amended: every ticket returned by creation has status
`Pending`; `CreateLotteryTicket` derives the identity deterministically as
the string nanosecond-timestamp ++ "_" ++ userID (so identities can differ
only when the observed timestamp or the user differs — same user, same
nanosecond collide), and `PlaceBet`'s identity is exactly the uuid drawn for
the call (unique only insofar as the uuid source never repeats). -/
theorem C5_amended_pending_status_and_identity_formula :
    ∀ (nano : Nat) (lt : LotteryType) (u : String) (ns : List (List Int)),
      (Warehouse.CreateLotteryTicket nano lt u ns).status = .Pending ∧
      (Warehouse.CreateLotteryTicket nano lt u ns).id =
        Nat.repr nano ++ "_" ++ u ∧
      ∀ (freshId nowUnix userID : Nat) (lt2 : LotteryType)
        (ns2 : List (List Int)) (amt : Int)
        (tks : List Service.LotteryTicket) (rs : List Service.DrawResult),
        ∃ t : Service.LotteryTicket,
          Service.PlaceBet freshId nowUnix userID lt2 ns2 amt
              ⟨tks, rs, false⟩ = (.ok t, ⟨tks ++ [t], rs, false⟩) ∧
          t.status = .Pending ∧ t.id = freshId :=
  fun nano lt u ns =>
    ⟨rfl, rfl, fun freshId nowUnix userID lt2 ns2 amt tks rs =>
      ⟨_, rfl, rfl, rfl⟩⟩

/-- First ticket of the C7 fixture: user 9, creation time 1. -/
def t1C7 : Service.LotteryTicket :=
  ⟨11, 9, .DoubleBall, "", [[1, 2, 3, 4, 5, 6], [7]], 200, 0, "1", 1, .Pending⟩

/-- Second ticket of the C7 fixture: user 9, creation time 2 (newer). -/
def t2C7 : Service.LotteryTicket :=
  ⟨12, 9, .DoubleBall, "", [[2, 3, 4, 5, 6, 7], [8]], 200, 0, "2", 2, .Pending⟩

/-- Repository of the C7 fixture: the older ticket saved first, then the
newer one. -/
def repoC7 : Service.MongoLotteryRepository :=
  (Service.SaveTicket t2C7 (Service.SaveTicket t1C7 ⟨[], [], false⟩).2).2

/-- Claim C7, counterexample: `GetTicketsByUser` runs an unsorted `Find`, so
for user 9 of the fixture it returns the tickets in insertion order — the
OLDER ticket first — and the returned sequence is not ordered newest first. -/
theorem C7_counterexample_not_newest_first :
    Service.GetTicketsByUser 9 repoC7 = .ok [t1C7, t2C7] ∧
    t1C7.betTime < t2C7.betTime ∧
    Service.newestFirst [t1C7, t2C7] = false := by
  refine ⟨rfl, by decide, by decide⟩

/-- Claim C7 as amended: with the store reachable, `GetTicketsByUser` returns
exactly the stored tickets whose user matches, in the collection's insertion
order (creation order, oldest first) — an order-preserving sublist of the
store — with no newest-first sorting applied. -/
theorem C7_amended_returns_users_tickets_in_insertion_order
    (userID : Nat) (tks : List Service.LotteryTicket)
    (rs : List Service.DrawResult) :
    ∃ l, Service.GetTicketsByUser userID ⟨tks, rs, false⟩ = .ok l ∧
      l.Sublist tks ∧
      ∀ t : Service.LotteryTicket, t ∈ l ↔ t ∈ tks ∧ t.userID = userID := by
  refine ⟨tks.filter (fun t => t.userID == userID), rfl,
    List.filter_sublist tks, fun t => ?_⟩
  simp [List.mem_filter]

/-- Claim C3: the status lifecycle is exactly Pending → Winning | Lost and
Winning → Claimed; every transition outside these edges — in particular a
claim of a `Pending` ticket, a re-claim of a `Claimed` ticket, and any
transition from `Lost` or `Claimed` back to `Pending` — fails with
`InvalidTransition` (producing no updated ticket, so the ticket is left
unchanged), while a claim from `Winning` succeeds and only changes the
status. -/
theorem C3_status_state_machine :
    ∀ (t : Ledger.STicket) (ns : TicketStatus) (p : Int),
      (¬ ((t.status = .Pending ∧ (ns = .Winning ∨ ns = .Lost)) ∨
          (t.status = .Winning ∧ ns = .Claimed)) →
        Ledger.transition t ns p = .error .InvalidTransition) ∧
      (t.status = .Pending → Ledger.claimTicket t = .error .InvalidTransition) ∧
      (t.status = .Claimed → Ledger.claimTicket t = .error .InvalidTransition) ∧
      (t.status = .Lost →
        Ledger.transition t .Pending p = .error .InvalidTransition) ∧
      (t.status = .Claimed →
        Ledger.transition t .Pending p = .error .InvalidTransition) ∧
      (t.status = .Winning →
        Ledger.claimTicket t = .ok { t with status := .Claimed }) := by
  intro t ns p
  cases ht : t.status <;> cases ns <;>
    simp_all [Ledger.transition, Ledger.claimTicket, Ledger.allowedTransition]

/-- A won ticket used by the C3 witness. -/
def wonTicketC3 : Ledger.STicket :=
  ⟨1, 9, .DoubleBall, [[1, 2, 3, 4, 5, 6], [7]], 200, 1, .Winning, 500⟩

/-- A pending ticket used by the C3 witness. -/
def pendingTicketC3 : Ledger.STicket :=
  ⟨2, 9, .DoubleBall, [[1, 2, 3, 4, 5, 6], [7]], 200, 1, .Pending, 0⟩

/-- Witness for C3, replaying the spec scenario: claiming a pending ticket
fails with `InvalidTransition`; claiming a won ticket succeeds and moves it
to `Claimed`; claiming it again fails with `InvalidTransition`. -/
theorem C3_status_state_machine_witness :
    Ledger.claimTicket pendingTicketC3 = .error .InvalidTransition ∧
    Ledger.claimTicket wonTicketC3 = .ok { wonTicketC3 with status := .Claimed } ∧
    Ledger.claimTicket { wonTicketC3 with status := .Claimed } =
      .error .InvalidTransition :=
  ⟨(C3_status_state_machine pendingTicketC3 .Claimed 0).2.1 rfl,
   (C3_status_state_machine wonTicketC3 .Claimed 0).2.2.2.2.2 rfl,
   (C3_status_state_machine { wonTicketC3 with status := .Claimed } .Claimed 0).2.2.1 rfl⟩

/-- Claim C2: settling a `Pending` ticket against a finalized draw result
sends it to `Lost` with payout 0 when its match signature maps to no tier,
and to `Winning` with payout `tier.perWinnerAmount * multiple` when it maps
to a tier; and for the pick-6-with-bonus table, a ticket whose groups are
exactly the winning main numbers and bonus settles at the highest tier with
payout `a1 * 1` when the multiple is 1. -/
theorem C2_settlement_outcomes
    (table : Nat × Bool → Option Settlement.PrizeTier)
    (wmain : List Int) (wbonus : Int) (t : Ledger.STicket)
    (hp : t.status = .Pending) :
    (table (Settlement.pick6MatchSignature t.numbers wmain wbonus) = none →
      Settlement.settleTicket table wmain wbonus t =
        { t with status := .Lost, payout := 0 }) ∧
    (∀ tier,
      table (Settlement.pick6MatchSignature t.numbers wmain wbonus) =
          some tier →
      Settlement.settleTicket table wmain wbonus t =
        { t with status := .Winning,
                 payout := tier.perWinnerAmount * t.multiple }) ∧
    (∀ a1 a2 : Int, t.numbers = [wmain, [wbonus]] → wmain.length = 6 →
      t.multiple = 1 →
      Settlement.settleTicket (Settlement.pick6Table a1 a2) wmain wbonus t =
        { t with status := .Winning, payout := a1 * 1 }) := by
  have hguard : ∀ tb, Settlement.settleTicket tb wmain wbonus t =
      match tb (Settlement.pick6MatchSignature t.numbers wmain wbonus) with
      | none => { t with status := .Lost, payout := 0 }
      | some tier =>
          { t with status := .Winning,
                   payout := tier.perWinnerAmount * t.multiple } := by
    intro tb
    simp [Settlement.settleTicket, hp]
  refine ⟨fun h => by rw [hguard, h], fun tier h => by rw [hguard, h], ?_⟩
  intro a1 a2 hn hw hm
  have hsig : Settlement.pick6MatchSignature t.numbers wmain wbonus =
      (6, true) := by
    rw [hn]
    unfold Settlement.pick6MatchSignature
    simp only [List.headD_cons, List.getD_cons_succ, List.getD_cons_zero]
    rw [List.filter_eq_self.mpr (fun a ha => by simpa using ha)]
    simp [hw]
  rw [hguard, hsig]
  simp [Settlement.pick6Table, hm]

/-- The scenario ticket of spec §8 for C2: pick-6 numbers 1-6, bonus 7,
multiple 1, stake 2.00 (200 cents), pending. -/
def scenarioTicketC2 : Ledger.STicket :=
  ⟨1, 9, .DoubleBall, [[1, 2, 3, 4, 5, 6], [7]], 200, 1, .Pending, 0⟩

/-- Witness for C2, replaying the spec scenario: the exact-match pick-6
ticket's signature is (6, true), the table maps it to the highest tier
"FIRST", and settlement yields `Winning` with payout `5000000 * 1`. -/
theorem C2_settlement_outcomes_witness :
    scenarioTicketC2.status = .Pending ∧
    Settlement.pick6Table 5000000 100000
        (Settlement.pick6MatchSignature scenarioTicketC2.numbers
          [1, 2, 3, 4, 5, 6] 7) =
      some { label := "FIRST", perWinnerAmount := 5000000 } ∧
    Settlement.settleTicket (Settlement.pick6Table 5000000 100000)
        [1, 2, 3, 4, 5, 6] 7 scenarioTicketC2 =
      { scenarioTicketC2 with status := .Winning, payout := 5000000 * 1 } :=
  ⟨rfl, by decide,
    (C2_settlement_outcomes (Settlement.pick6Table 5000000 100000)
        [1, 2, 3, 4, 5, 6] 7 scenarioTicketC2 rfl).2.2 5000000 100000
      rfl rfl rfl⟩

/-- Idempotence of per-group canonicalization: sorting an already-sorted
group is a no-op, and order-preserving products leave the group untouched. -/
theorem canonicalizeGroup_idem (lt : LotteryType) (g : List Int) :
    BetFormat.canonicalizeGroup lt (BetFormat.canonicalizeGroup lt g) =
      BetFormat.canonicalizeGroup lt g := by
  unfold BetFormat.canonicalizeGroup
  cases h : (BetFormat.formatRule lt).orderIrrelevant with
  | false => simp
  | true =>
      simp only [if_pos rfl]
      exact List.Sorted.insertionSort_eq (List.sorted_insertionSort _ g)

/-- Claim C6: for every (product, numberGroups) pair accepted by `validate`,
re-canonicalizing an already-canonical selection is a no-op. -/
theorem C6_canonicalize_idempotent (lt : LotteryType)
    (gs : List (List Int)) (hv : BetFormat.validate lt gs = true) :
    BetFormat.canonicalize lt (BetFormat.canonicalize lt gs) =
      BetFormat.canonicalize lt gs := by
  unfold BetFormat.canonicalize
  rw [List.map_map]
  exact List.map_congr_left (fun g _ => canonicalizeGroup_idem lt g)

/-- Witness for C6 at a concrete valid double-ball selection. -/
theorem C6_canonicalize_idempotent_witness :
    BetFormat.validate .DoubleBall [[3, 1, 2, 4, 5, 6], [7]] = true ∧
    BetFormat.canonicalize .DoubleBall
        (BetFormat.canonicalize .DoubleBall [[3, 1, 2, 4, 5, 6], [7]]) =
      BetFormat.canonicalize .DoubleBall [[3, 1, 2, 4, 5, 6], [7]] :=
  ⟨by decide, C6_canonicalize_idempotent .DoubleBall _ (by decide)⟩

end KratosLottery
